import Mathlib

/-!
Formal model of the NatureScope classification backend.

The definitions below are a shallow embedding of
`backend/pytorch_identifier.py` and `backend/classifier.py`.
Floating-point numbers are modelled by rationals; Python dictionaries by
insertion-ordered association lists; each external call (PyTorch inference,
Google Vision, PlantNet, Wikipedia) is modelled by an oracle argument giving
the already-parsed outcome of the call, with `none` / error values standing
for the exception and failure paths that the Python code catches.
-/

namespace NatureScope

/-- Python substring test `needle in hay`. -/
def strContains (hay needle : String) : Bool :=
  (List.range (hay.data.length + 1)).any fun i => needle.data.isPrefixOf (hay.data.drop i)

/-- `_PLANT_KEYWORDS_PRIMARY` from pytorch_identifier.py. -/
def PLANT_KEYWORDS_PRIMARY : List String :=
  ["plant", "flower", "tree", "leaf", "leaves", "blossom", "petal",
   "vegetable", "fruit", "shrub", "bush", "herb", "succulent", "cactus",
   "fern", "moss", "seaweed", "grass", "grain", "cereal", "legume"]

/-- `_PLANT_KEYWORDS_SECONDARY` from pytorch_identifier.py
(the source literal lists `pine` twice; membership is unaffected). -/
def PLANT_KEYWORDS_SECONDARY : List String :=
  ["orchid", "rose", "daisy", "tulip", "sunflower", "lily", "iris", "lotus",
   "cabbage", "carrot", "potato", "tomato", "lettuce", "spinach", "broccoli",
   "banana", "apple", "orange", "grape", "strawberry", "blueberry", "raspberry",
   "corn", "wheat", "rice", "barley", "oats", "pine", "oak", "maple", "birch",
   "palm", "bamboo", "willow", "pine", "spruce", "elm", "ash", "beech",
   "ivy", "vine", "climbing", "weed", "lichen", "fungus", "mushroom", "toadstool"]

/-- `_ANIMAL_KEYWORDS_PRIMARY` from pytorch_identifier.py. -/
def ANIMAL_KEYWORDS_PRIMARY : List String :=
  ["dog", "cat", "bird", "fish", "mammal", "insect", "animal",
   "horse", "cow", "sheep", "pig", "monkey", "bear", "lion", "tiger",
   "snake", "lizard", "frog", "turtle", "beetle", "butterfly", "ant", "bee"]

/-- `_ANIMAL_KEYWORDS_SECONDARY` from pytorch_identifier.py. -/
def ANIMAL_KEYWORDS_SECONDARY : List String :=
  ["puppy", "kitten", "spider", "squirrel", "rabbit", "deer", "wolf", "fox",
   "whale", "dolphin", "shark", "eagle", "owl", "duck", "goose", "penguin",
   "zebra", "giraffe", "elephant", "rhinoceros", "hippopotamus", "otter", "seal",
   "dragonfly", "cricket", "grasshopper", "moth", "wasp", "fly", "mosquito",
   "termite", "snail", "crab", "lobster", "shrimp", "scorpion", "worm"]

/-- Python `str.lower()` (structurally recursive so that concrete
evaluations reduce). -/
def pyLower (s : String) : String := String.mk (s.data.map Char.toLower)

/-- Python slicing `s[:n]` (structurally recursive so that concrete
evaluations reduce). -/
def pyTruncate (s : String) (n : Nat) : String := String.mk (s.data.take n)

/-- `any(k in txt for k in keywords)`. -/
def matchesAny (keywords : List String) (txt : String) : Bool :=
  keywords.any fun k => strContains txt k

/-- One iteration of the scoring loop of `classify_image_source`
(pytorch_identifier.py lines 167-189): the (plant, animal) contribution of
the prediction at 0-indexed `rank` with label `label` and probability
`prob`. -/
def score_step (rank : Nat) (label : String) (prob : ℚ) : ℚ × ℚ :=
  let txt := pyLower label
  let rank_weight : ℚ := 1 - (rank : ℚ) * (1/5)
  let plant :=
    if matchesAny PLANT_KEYWORDS_PRIMARY txt then prob * rank_weight * (3/2)
    else if matchesAny PLANT_KEYWORDS_SECONDARY txt then prob * rank_weight * 1
    else 0
  let animal :=
    if matchesAny ANIMAL_KEYWORDS_PRIMARY txt then prob * rank_weight * (3/2)
    else if matchesAny ANIMAL_KEYWORDS_SECONDARY txt then prob * rank_weight * 1
    else 0
  (plant, animal)

/-- The accumulation of `plant_score` / `animal_score` over the enumerated
prediction list, starting at rank `rank` (the Category Scorer loop of
`classify_image_source`). -/
def score_from (rank : Nat) : List (String × ℚ) → ℚ × ℚ
  | [] => (0, 0)
  | (label, prob) :: rest =>
    let s := score_step rank label prob
    let t := score_from (rank + 1) rest
    (s.1 + t.1, s.2 + t.2)

/-- Category Scorer: per-model `(plant_score, animal_score)` from the model's
top-K prediction list (ranks enumerate from 0). -/
def score (predictions : List (String × ℚ)) : ℚ × ℚ :=
  score_from 0 predictions

/-- The specification's per-prediction plant contribution: `p * rank_weight * 1.5`
for a primary match, `p * rank_weight * 1.0` for a secondary-only match,
`0` otherwise, with `rank_weight = 1.0 - r * 0.2`. -/
def spec_plant_contribution (r : Nat) (label : String) (p : ℚ) : ℚ :=
  let rank_weight : ℚ := 1 - (r : ℚ) * (1/5)
  if matchesAny PLANT_KEYWORDS_PRIMARY (pyLower label) then p * rank_weight * (3/2)
  else if matchesAny PLANT_KEYWORDS_SECONDARY (pyLower label) then p * rank_weight * 1
  else 0

/-- The specification's per-prediction animal contribution. -/
def spec_animal_contribution (r : Nat) (label : String) (p : ℚ) : ℚ :=
  let rank_weight : ℚ := 1 - (r : ℚ) * (1/5)
  if matchesAny ANIMAL_KEYWORDS_PRIMARY (pyLower label) then p * rank_weight * (3/2)
  else if matchesAny ANIMAL_KEYWORDS_SECONDARY (pyLower label) then p * rank_weight * 1
  else 0

/-- Result of the ensemble aggregation step of `classify_image_source`. -/
structure AggResult where
  avg_plant_score : ℚ
  avg_animal_score : ℚ
  plant_score_norm : ℚ
  animal_score_norm : ℚ
  decision : String
  confidence : ℚ
deriving Repr, DecidableEq

/-- Ensemble Aggregator: lines 199-217 of `classify_image_source`.  The
input is the list of per-model `(plant_score, animal_score)` pairs of the
models that produced predictions; the empty list raises
`RuntimeError("No models produced valid predictions")` in the source. -/
def aggregate (scores : List (ℚ × ℚ)) : Except String AggResult :=
  if scores.isEmpty then .error "No models produced valid predictions"
  else
    let avg_plant := (scores.map Prod.fst).sum / (scores.length : ℚ)
    let avg_animal := (scores.map Prod.snd).sum / (scores.length : ℚ)
    let total := avg_plant + avg_animal
    let pn := if 0 < total then avg_plant / total else 1/2
    let an := if 0 < total then avg_animal / total else 1/2
    let decision := if 1/2 ≤ pn then "plant" else "animal"
    .ok ⟨avg_plant, avg_animal, pn, an, decision, max pn an⟩

/-! ## Python dictionaries as insertion-ordered association lists -/

/-- A Python value as it appears in the result dictionaries of
`classifier.py`. -/
inductive Val where
  | null : Val
  | str : String → Val
  | num : ℚ → Val
  | dict : List (String × Val) → Val
  | listv : List Val → Val

/-- A Python dictionary with string keys. -/
abbrev Dict := List (String × Val)

/-- Key lookup in an association list (first occurrence wins, as in a
Python dict, whose keys are unique). -/
def dlookup (k : String) : Dict → Option Val
  | [] => none
  | (a, b) :: tl => if k = a then some b else dlookup k tl

/-- `d.get(k)`. -/
def dget (d : Dict) (k : String) : Option Val := dlookup k d

/-- `k in d`. -/
def containsKey (d : Dict) (k : String) : Bool := (dlookup k d).isSome

/-- `d[k] = v`: overwrite in place when the key is present (Python dicts
keep insertion order and unique keys), append otherwise. -/
def dinsert : Dict → String → Val → Dict
  | [], k, v => [(k, v)]
  | (a, b) :: tl, k, v => if k = a then (k, v) :: tl else (a, b) :: dinsert tl k v

/-- `d.update(other)`: write every entry of `other` into `d`. -/
def dupdate (d other : Dict) : Dict :=
  other.foldl (fun acc kv => dinsert acc kv.1 kv.2) d

/-! ## PlantNet provider adapter -/

/-- Parsed top suggestion of a successful PlantNet API call (`results[0]`
in `_try_plantnet`).  A `none` oracle at the call site stands for every
path on which `_try_plantnet` returns `None`: missing `PLANTNET_API_KEY`,
non-200 status, empty `results`, or an exception. -/
structure PlantTop where
  scientificName : Option String
  commonName : Option String
  speciesName : Option String
  suggestedCommonName : Option String
  probability : ℚ

/-- `result.setdefault('additional_details', {})[k] = v`
(classifier.py lines 490-493). -/
def set_in_additional (res : Dict) (k : String) (v : Val) : Dict :=
  match dget res "additional_details" with
  | some (.dict inner) => dinsert res "additional_details" (.dict (dinsert inner k v))
  | _ => dinsert res "additional_details" (.dict (dinsert [] k v))

/-- `_try_plantnet` (classifier.py lines 444-498) after the transport layer:
builds the canonical plantnet result record from the parsed top suggestion
(the raw provider payload is kept opaque under the `raw` key). -/
def try_plantnet (pn : Option PlantTop) : Option Dict :=
  match pn with
  | none => none
  | some top =>
    let label := (((top.scientificName).orElse fun _ => top.commonName).orElse
        fun _ => top.speciesName).orElse fun _ => top.suggestedCommonName
    let base : Dict :=
      [("label", match label with | some s => .str s | none => .null),
       ("confidence", .num top.probability),
       ("source", .str "plantnet"),
       ("error", .null),
       ("raw", .null)]
    let withSci := match top.scientificName with
      | some s => set_in_additional base "scientific_name" (.str s)
      | none => base
    match top.commonName with
    | some c => some (set_in_additional withSci "common_name" (.str c))
    | none => some withSci

/-! ## Google Vision provider adapter -/

/-- Oracle for the Vision sub-calls made by `_get_additional_vision_details`:
dominant colors (hex, pixel_fraction, score), detected text and localized
objects; `ok = false` stands for an exception anywhere inside, on which the
function returns `{}`. -/
structure DetailsOracle where
  ok : Bool
  colors : List (String × ℚ × ℚ)
  text : Option String
  objects : List (String × ℚ)

/-- `_get_additional_vision_details` (classifier.py lines 299-338). -/
def get_additional_vision_details (d : DetailsOracle) : Dict :=
  if !d.ok then []
  else
    let base : Dict := []
    let base := if d.colors.isEmpty then base else
      base ++ [("dominant_colors", .listv ((d.colors.take 3).map fun c =>
        .dict [("hex", .str c.1), ("pixel_fraction", .num c.2.1), ("score", .num c.2.2)]))]
    let base := match d.text with
      | some t => base ++ [("detected_text", .str (pyTruncate t 200))]
      | none => base
    let base := if d.objects.isEmpty then base else
      base ++ [("detected_objects", .listv ((d.objects.take 5).map fun o =>
        .dict [("name", .str o.1), ("score", .num o.2)]))]
    base

/-- Parsed result of `_enrich_with_wikipedia` for one candidate label;
`none` stands for a failed search, a non-200 response or an exception. -/
structure Enrichment where
  page_title : String
  summary : String
  wikidata_id : Option String
  scientific_name : Option String
  wikipedia_url : String

/-- The dictionary `_enrich_with_wikipedia` returns (lines 400-406). -/
def enrichment_dict (e : Enrichment) : Dict :=
  [("page_title", .str e.page_title),
   ("summary", .str (pyTruncate e.summary 800)),
   ("wikidata_id", match e.wikidata_id with | some w => .str w | none => .null),
   ("scientific_name", match e.scientific_name with | some s => .str s | none => .null),
   ("wikipedia_url", .str e.wikipedia_url)]

/-- Provider calls observed while classifying (the call log). -/
inductive Call where
  | google : Call
  | plantnet : Call
  | wikipedia : Call
deriving DecidableEq, Repr

/-- The candidate-enrichment loop of `_try_google_vision` (lines 206-223):
scan the candidates, stop on a scientific name or a multi-word /
parenthesised page title, otherwise remember the first hit; also log one
`wikipedia` call per candidate tried. -/
def choose_enrichment (enrich : String → Option Enrichment) :
    List String → Option Enrichment → Option Enrichment × List Call
  | [], acc => (acc, [])
  | c :: rest, acc =>
    match enrich c with
    | none =>
      let r := choose_enrichment enrich rest acc
      (r.1, Call.wikipedia :: r.2)
    | some e =>
      if e.scientific_name.isSome then (some e, [Call.wikipedia])
      else if (e.page_title != "") &&
          (strContains e.page_title " " || strContains e.page_title "(") then
        (some e, [Call.wikipedia])
      else
        let r := choose_enrichment enrich rest (if acc.isNone then some e else acc)
        (r.1, Call.wikipedia :: r.2)

/-- Oracle for the Google Cloud Vision calls of `_try_google_vision`.
`available = false` stands for a missing client library or an exception
escaping the top-level `try` (the function then returns `None` without
reaching any further call). -/
structure GOracle where
  available : Bool
  label_error : Option String
  labels : List (String × ℚ)
  web_ok : Bool
  web_best_guess : Option String
  web_entities : List String
  details : DetailsOracle
  enrich : String → Option Enrichment
  objects : List (String × ℚ × String)
  landmarks : List (String × ℚ)
  web2_error : Option String
  web2_best_guess : Option String
  web2_entities : List (String × ℚ)

/-- `generic_stopwords` (classifier.py line 159). -/
def generic_stopwords : List String :=
  ["bird", "animal", "plant", "flower", "tree", "mammal", "insect",
   "organism", "vertebrate", "wildlife", "beak", "feather", "nature"]

/-- `plant_keywords` of the post-hoc correction (classifier.py line 192). -/
def route_plant_keywords : List String :=
  ["plant", "flower", "tree", "leaf", "fern", "moss", "fungus", "mushroom",
   "bloom", "rose", "orchid"]

/-- Candidate gathering of `_try_google_vision` (lines 157-178): top-5 label
descriptions reordered to put non-stopword ones first, then the web best
guess and up to five web-entity descriptions appended if new. -/
def build_candidates (g : GOracle) : List String :=
  let cands := (g.labels.take 5).map Prod.fst
  let specific := cands.filter fun c => (c != "") && !(generic_stopwords.contains (pyLower c))
  let cands := specific ++ cands.filter fun c => !(specific.contains c)
  if g.web_ok then
    let cands := match g.web_best_guess with
      | some b => if (b != "") && !(cands.contains b) then cands ++ [b] else cands
      | none => cands
    (g.web_entities.take 5).foldl
      (fun acc e => if (e != "") && !(acc.contains e) then acc ++ [e] else acc) cands
  else cands

/-- `plantnet_result.setdefault('additional_details', {}).update(additional_details)`
(classifier.py line 200).  When the result already holds a non-dictionary
under `additional_details`, `.update` would raise and the surrounding
`except` leaves the result unchanged. -/
def update_additional (res : Dict) (details : Dict) : Dict :=
  match dget res "additional_details" with
  | some (.dict inner) => dinsert res "additional_details" (.dict (dupdate inner details))
  | some _ => res
  | none => dinsert res "additional_details" (.dict (dupdate [] details))

/-- The guarded merge of the post-hoc plant correction (lines 197-202):
`if 'additional_details' in additional_details:` — the guard tests for the
key `'additional_details'` inside the details dictionary itself. -/
def merge_additional (res : Dict) (details : Dict) : Dict :=
  if containsKey details "additional_details" then update_additional res details else res

/-- Applying the chosen enrichment to the base result (lines 225-234):
prefer the scientific name (with the page title parenthesised when
present), else the page title, attach the record and annotate the source. -/
def apply_enrichment (result : Dict) : Option Enrichment → Dict
  | none => result
  | some e =>
    let result := match e.scientific_name with
      | some sci =>
        dinsert result "label"
          (.str (if e.page_title != "" then sci ++ " (" ++ e.page_title ++ ")" else sci))
      | none =>
        if e.page_title != "" then dinsert result "label" (.str e.page_title) else result
    let result := dinsert result "enrichment" (.dict (enrichment_dict e))
    dinsert result "source" (.str "google_vision + wikipedia")

/-- The fallback detection stages of `_try_google_vision` (lines 238-289):
object localization, then landmark detection, then a second web detection
(location and vertex payloads are kept opaque). -/
def google_fallback_stages (g : GOracle) : Option Dict :=
  match g.objects with
  | (name, score, _) :: _ =>
    some [("label", .str name), ("confidence", .num score),
          ("source", .str "google_vision_objects"), ("error", .null),
          ("all_objects", .listv ((g.objects.take 5).map fun o =>
             .dict [("name", .str o.1), ("score", .num o.2.1),
                    ("vertices", .str (pyTruncate o.2.2 100))]))]
  | [] =>
    match g.landmarks with
    | (name, score) :: _ =>
      some [("label", .str name), ("confidence", .num score),
            ("source", .str "google_vision_landmark"), ("error", .null),
            ("location", .null)]
    | [] =>
      if g.web2_error.isSome then none
      else match g.web2_best_guess with
        | some l =>
          if l != "" then
            some [("label", .str l), ("confidence", .num (1/2)),
                  ("source", .str "google_vision_web"), ("error", .null),
                  ("web_entities", .listv ((g.web2_entities.take 5).map fun e =>
                     .dict [("description", .str e.1), ("score", .num e.2)]))]
          else none
        | none => none

/-- `_try_google_vision` (classifier.py lines 122-296), relative to the
Google oracle and the PlantNet oracle (for the post-hoc plant re-route).
Returns the optional result together with the log of nested provider calls
(the Google call itself is logged by the caller). -/
def try_google_vision (g : GOracle) (pn : Option PlantTop) : Option Dict × List Call :=
  if !g.available then (none, [])
  else if g.label_error.isSome then (google_fallback_stages g, [])
  else match g.labels with
  | [] => (google_fallback_stages g, [])
  | (desc, score) :: _ =>
    let candidates := build_candidates g
    let additional_details := get_additional_vision_details g.details
    let result : Dict :=
      [("label", .str desc), ("confidence", .num score),
       ("source", .str "google_vision_labels"), ("error", .null),
       ("all_labels", .listv ((g.labels.take 5).map fun l =>
          .dict [("description", .str l.1), ("score", .num l.2)])),
       ("additional_details", .dict additional_details)]
    let any_plant := candidates.any fun c =>
      (c != "") && matchesAny route_plant_keywords (pyLower c)
    if any_plant then
      match try_plantnet pn with
      | some pr => (some (merge_additional pr additional_details), [Call.plantnet])
      | none =>
        let e := choose_enrichment g.enrich candidates none
        (some (apply_enrichment result e.1), Call.plantnet :: e.2)
    else
      let e := choose_enrichment g.enrich candidates none
      (some (apply_enrichment result e.1), e.2)

/-! ## Provider Router -/

/-- Terminal failure record of `classify_image` (lines 114-119). -/
def terminal_result : Dict :=
  [("label", .null), ("confidence", .null), ("source", .null),
   ("error", .str "No classification provider could classify the image")]

/-- `category = pytorch_result.get('decision')`: `none` when the PyTorch
module is unavailable or `classify_image_source` raised. -/
def categoryOf : Option (Except String String) → Option String
  | some (.ok d) => some d
  | _ => none

/-- Step 3 of `classify_image` (classifier.py lines 106-119): the
unconditional Google Vision fallback, falling back to the terminal failure
record.  `py` below is the outcome of the
`pytorch_identifier.classify_image_source` call (`none`: module not
importable; `.error`: the call raised and was caught; `.ok d`: returned
decision `d`); `pn` and `g` are the PlantNet and Google oracles; the second
component is the chronological provider-call log. -/
def classify_step3 (pn : Option PlantTop) (g : GOracle) : Dict × List Call :=
  match try_google_vision g pn with
  | (some r, l) => (r, Call.google :: l)
  | (none, l) => (terminal_result, Call.google :: l)

/-- `classify_image` (classifier.py lines 65-119), continued: the routed
stages before the unconditional step 3. -/
def classify_image (py : Option (Except String String)) (pn : Option PlantTop)
    (g : GOracle) : Dict × List Call :=
  match categoryOf py with
  | some c =>
    if c = "plant" then
      match try_plantnet pn with
      | some r => (r, [Call.plantnet])
      | none =>
        ((classify_step3 pn g).1, Call.plantnet :: (classify_step3 pn g).2)
    else if c = "animal" then
      match try_google_vision g pn with
      | (some r, l) => (r, Call.google :: l)
      | (none, l) =>
        ((classify_step3 pn g).1, (Call.google :: l) ++ (classify_step3 pn g).2)
    else classify_step3 pn g
  | none => classify_step3 pn g

/-! ## Category Scorer lemmas -/

/-- A scoring-loop step agrees with the specification's per-prediction
contribution formulas. -/
theorem score_step_eq_spec (r : Nat) (label : String) (prob : ℚ) :
    score_step r label prob =
      (spec_plant_contribution r label prob, spec_animal_contribution r label prob) := rfl

/-- The scoring loop starting at rank `r` sums the specification's
contributions over the predictions enumerated from `r`. -/
theorem score_from_eq_spec (l : List (String × ℚ)) : ∀ r : Nat,
    score_from r l =
      (((l.enumFrom r).map fun rp => spec_plant_contribution rp.1 rp.2.1 rp.2.2).sum,
       ((l.enumFrom r).map fun rp => spec_animal_contribution rp.1 rp.2.1 rp.2.2).sum) := by
  induction l with
  | nil => intro r; rfl
  | cons hd tl ih =>
    intro r
    obtain ⟨label, prob⟩ := hd
    simp only [score_from, List.enumFrom, List.map_cons, List.sum_cons, ih (r + 1),
      score_step_eq_spec]

/-- A scoring-loop step is non-negative when the probability is non-negative
and the rank is at most 4 (so that `rank_weight = 1 - r * 0.2 ≥ 0`). -/
theorem score_step_nonneg (r : Nat) (label : String) (p : ℚ)
    (hp : 0 ≤ p) (hr : r ≤ 4) :
    0 ≤ (score_step r label p).1 ∧ 0 ≤ (score_step r label p).2 := by
  have hc : (r : ℚ) ≤ 4 := by exact_mod_cast hr
  have hrw : (0 : ℚ) ≤ 1 - (r : ℚ) * (1/5) := by linarith
  constructor <;>
  · simp only [score_step]
    split_ifs <;>
      first
        | exact le_refl 0
        | exact mul_nonneg (mul_nonneg hp hrw) (by norm_num)

/-- The accumulated scores are non-negative when all probabilities are
non-negative and at most `5 - r` predictions remain from rank `r`. -/
theorem score_from_nonneg (l : List (String × ℚ)) : ∀ r : Nat,
    (∀ p ∈ l, 0 ≤ p.2) → r + l.length ≤ 5 →
    0 ≤ (score_from r l).1 ∧ 0 ≤ (score_from r l).2 := by
  induction l with
  | nil => intro r _ _; exact ⟨le_refl 0, le_refl 0⟩
  | cons hd tl ih =>
    intro r hnn hlen
    obtain ⟨label, prob⟩ := hd
    have h1 : 0 ≤ prob := hnn (label, prob) (List.mem_cons_self _ _)
    have hr : r ≤ 4 := by simp only [List.length_cons] at hlen; omega
    have hstep := score_step_nonneg r label prob h1 hr
    have hrest := ih (r + 1) (fun p hp => hnn p (List.mem_cons_of_mem _ hp))
      (by simp only [List.length_cons] at hlen; omega)
    simp only [score_from]
    exact ⟨add_nonneg hstep.1 hrest.1, add_nonneg hstep.2 hrest.2⟩

/-- A prediction list in which no label matches any keyword set accumulates
to `(0, 0)` from any starting rank. -/
theorem score_from_zero (l : List (String × ℚ)) : ∀ r : Nat,
    (∀ p ∈ l, matchesAny PLANT_KEYWORDS_PRIMARY (pyLower p.1) = false ∧
      matchesAny PLANT_KEYWORDS_SECONDARY (pyLower p.1) = false ∧
      matchesAny ANIMAL_KEYWORDS_PRIMARY (pyLower p.1) = false ∧
      matchesAny ANIMAL_KEYWORDS_SECONDARY (pyLower p.1) = false) →
    score_from r l = (0, 0) := by
  induction l with
  | nil => intro r _; rfl
  | cons hd tl ih =>
    intro r hno
    obtain ⟨label, prob⟩ := hd
    have hh := hno (label, prob) (List.mem_cons_self _ _)
    have hstep : score_step r label prob = (0, 0) := by
      simp only [score_step, hh.1, hh.2.1, hh.2.2.1, hh.2.2.2, Bool.false_eq_true, if_false]
    have hrest := ih (r + 1) (fun p hp => hno p (List.mem_cons_of_mem _ hp))
    simp only [score_from, hstep, hrest]
    norm_num

/-! ## Ensemble Aggregator lemmas -/

/-- Characterization of a successful aggregation: the averaged,
normalized scores, the tie-to-plant decision rule, and the confidence. -/
theorem aggregate_ok_char (scores : List (ℚ × ℚ)) (d : AggResult)
    (h : aggregate scores = .ok d) :
    scores ≠ [] ∧
    d.avg_plant_score = (scores.map Prod.fst).sum / (scores.length : ℚ) ∧
    d.avg_animal_score = (scores.map Prod.snd).sum / (scores.length : ℚ) ∧
    (0 < d.avg_plant_score + d.avg_animal_score →
      d.plant_score_norm = d.avg_plant_score / (d.avg_plant_score + d.avg_animal_score) ∧
      d.animal_score_norm = d.avg_animal_score / (d.avg_plant_score + d.avg_animal_score)) ∧
    (¬ 0 < d.avg_plant_score + d.avg_animal_score →
      d.plant_score_norm = 1/2 ∧ d.animal_score_norm = 1/2) ∧
    (d.decision = "plant" ↔ 1/2 ≤ d.plant_score_norm) ∧
    (d.decision = "animal" ↔ ¬ 1/2 ≤ d.plant_score_norm) ∧
    d.confidence = max d.plant_score_norm d.animal_score_norm := by
  unfold aggregate at h
  by_cases he : scores.isEmpty
  · simp [he] at h
  · rw [if_neg he] at h
    simp only [Except.ok.injEq] at h
    obtain rfl := h.symm
    refine ⟨?_, rfl, rfl, ?_, ?_, ?_, ?_, rfl⟩
    · intro hc
      exact he (by simp [hc])
    · intro h0
      dsimp only at h0 ⊢
      constructor
      · rw [if_pos h0]
      · rw [if_pos h0]
    · intro h0
      dsimp only at h0 ⊢
      constructor
      · rw [if_neg h0]
      · rw [if_neg h0]
    · dsimp only
      by_cases hd : (1:ℚ)/2 ≤
        (if 0 < (scores.map Prod.fst).sum / (scores.length : ℚ) +
            (scores.map Prod.snd).sum / (scores.length : ℚ) then
          (scores.map Prod.fst).sum / (scores.length : ℚ) /
            ((scores.map Prod.fst).sum / (scores.length : ℚ) +
             (scores.map Prod.snd).sum / (scores.length : ℚ))
        else 1/2)
      · rw [if_pos hd]
        exact ⟨fun _ => hd, fun _ => rfl⟩
      · rw [if_neg hd]
        exact ⟨fun hc => absurd hc (by decide), fun hc => absurd hc hd⟩
    · dsimp only
      by_cases hd : (1:ℚ)/2 ≤
        (if 0 < (scores.map Prod.fst).sum / (scores.length : ℚ) +
            (scores.map Prod.snd).sum / (scores.length : ℚ) then
          (scores.map Prod.fst).sum / (scores.length : ℚ) /
            ((scores.map Prod.fst).sum / (scores.length : ℚ) +
             (scores.map Prod.snd).sum / (scores.length : ℚ))
        else 1/2)
      · rw [if_pos hd]
        exact ⟨fun hc => absurd hc (by decide), fun hc => absurd hd hc⟩
      · rw [if_neg hd]
        exact ⟨fun _ => hd, fun _ => rfl⟩

/-- The two normalized scores always sum to 1. -/
theorem aggregate_norm_sum (scores : List (ℚ × ℚ)) (d : AggResult)
    (h : aggregate scores = .ok d) :
    d.plant_score_norm + d.animal_score_norm = 1 := by
  obtain ⟨-, -, -, hpos, hneg, -, -, -⟩ := aggregate_ok_char scores d h
  by_cases h0 : 0 < d.avg_plant_score + d.avg_animal_score
  · obtain ⟨hp, ha⟩ := hpos h0
    rw [hp, ha, div_add_div_same, div_self (ne_of_gt h0)]
  · obtain ⟨hp, ha⟩ := hneg h0
    rw [hp, ha]; norm_num

/-- C1: The Ensemble Aggregator, given the per-model plant/animal scores
gathered in `classify_image_source`, averages `plant_score` and
`animal_score` over exactly the models that produced a score; when the sum
of the two averages is positive it normalizes each by that sum, otherwise
both normalized scores default to 1/2; the decision is `plant` exactly when
the normalized plant score is at least 1/2 (so the exact tie 1/2 resolves
to `plant`) and `animal` otherwise, and the reported confidence is the
maximum of the two normalized scores. -/
theorem C1_ensemble_aggregator (scores : List (ℚ × ℚ)) (d : AggResult)
    (h : aggregate scores = .ok d) :
    d.avg_plant_score = (scores.map Prod.fst).sum / (scores.length : ℚ) ∧
    d.avg_animal_score = (scores.map Prod.snd).sum / (scores.length : ℚ) ∧
    (0 < d.avg_plant_score + d.avg_animal_score →
      d.plant_score_norm = d.avg_plant_score / (d.avg_plant_score + d.avg_animal_score) ∧
      d.animal_score_norm = d.avg_animal_score / (d.avg_plant_score + d.avg_animal_score)) ∧
    (¬ 0 < d.avg_plant_score + d.avg_animal_score →
      d.plant_score_norm = 1/2 ∧ d.animal_score_norm = 1/2) ∧
    (d.decision = "plant" ↔ 1/2 ≤ d.plant_score_norm) ∧
    (d.decision = "animal" ↔ ¬ 1/2 ≤ d.plant_score_norm) ∧
    (d.plant_score_norm = 1/2 → d.decision = "plant") ∧
    d.confidence = max d.plant_score_norm d.animal_score_norm := by
  obtain ⟨-, h1, h2, h3, h4, h5, h6, h7⟩ := aggregate_ok_char scores d h
  exact ⟨h1, h2, h3, h4, h5, h6, fun ht => h5.mpr (by rw [ht]), h7⟩

/-- Witness for C1 at the concrete score list `[(3, 1)]`: the decision is
`plant` (not `animal`) and the confidence is the maximum of the norms. -/
theorem C1_witness :
    (⟨3, 1, 3/4, 1/4, "plant", 3/4⟩ : AggResult).decision = "plant" ∧
    ¬ (⟨3, 1, 3/4, 1/4, "plant", 3/4⟩ : AggResult).decision = "animal" ∧
    (⟨3, 1, 3/4, 1/4, "plant", 3/4⟩ : AggResult).confidence =
      max (⟨3, 1, 3/4, 1/4, "plant", 3/4⟩ : AggResult).plant_score_norm
        (⟨3, 1, 3/4, 1/4, "plant", 3/4⟩ : AggResult).animal_score_norm := by
  obtain ⟨-, -, -, -, h5, h6, -, h8⟩ :=
    C1_ensemble_aggregator [((3:ℚ), (1:ℚ))] ⟨3, 1, 3/4, 1/4, "plant", 3/4⟩
      (by simp only [aggregate]; norm_num)
  exact ⟨h5.mpr (by norm_num), fun hc => (h6.mp hc) (by norm_num), h8⟩

/-- C2: the Category Scorer's plant and animal scores equal the sums over
the enumerated predictions of the specification's contributions (primary
match: `p * rank_weight * 1.5`; secondary-only match: `p * rank_weight *
1.0`, `rank_weight = 1 - r * 0.2`); both scores are non-negative for every
top-K list (K ≤ 5) with non-negative probabilities; and a prediction list
with no keyword matches yields `(0, 0)`. -/
theorem C2_category_scorer (preds : List (String × ℚ)) :
    (score preds).1 =
      ((preds.enum).map fun rp => spec_plant_contribution rp.1 rp.2.1 rp.2.2).sum ∧
    (score preds).2 =
      ((preds.enum).map fun rp => spec_animal_contribution rp.1 rp.2.1 rp.2.2).sum ∧
    ((∀ p ∈ preds, 0 ≤ p.2) → preds.length ≤ 5 →
      0 ≤ (score preds).1 ∧ 0 ≤ (score preds).2) ∧
    ((∀ p ∈ preds, matchesAny PLANT_KEYWORDS_PRIMARY (pyLower p.1) = false ∧
        matchesAny PLANT_KEYWORDS_SECONDARY (pyLower p.1) = false ∧
        matchesAny ANIMAL_KEYWORDS_PRIMARY (pyLower p.1) = false ∧
        matchesAny ANIMAL_KEYWORDS_SECONDARY (pyLower p.1) = false) →
      score preds = (0, 0)) := by
  refine ⟨?_, ?_, ?_, ?_⟩
  · rw [score, score_from_eq_spec preds 0]
    rfl
  · rw [score, score_from_eq_spec preds 0]
    rfl
  · exact fun hnn hlen => score_from_nonneg preds 0 hnn (by omega)
  · exact fun hno => score_from_zero preds 0 hno

/-- Witness for C2 at the concrete prediction list `[("rock", 1/2)]`
(a label that matches no keyword set). -/
theorem C2_witness :
    (0 ≤ (score [("rock", (1:ℚ))]).1 ∧ 0 ≤ (score [("rock", (1:ℚ))]).2) ∧
    score [("rock", (1:ℚ))] = (0, 0) :=
  ⟨(C2_category_scorer [("rock", (1:ℚ))]).2.2.1 (by decide) (by decide),
   (C2_category_scorer [("rock", (1:ℚ))]).2.2.2 (by decide)⟩

/-- C8: aggregating an empty score list fails (the `NoScoresAvailable`
case, raised as `RuntimeError("No models produced valid predictions")`),
and aggregating any non-empty list of non-negative scores yields a
confidence in the closed interval [1/2, 1]. -/
theorem C8_aggregate_bounds :
    aggregate [] = .error "No models produced valid predictions" ∧
    ∀ (scores : List (ℚ × ℚ)) (d : AggResult), aggregate scores = .ok d →
      (∀ s ∈ scores, 0 ≤ s.1 ∧ 0 ≤ s.2) →
      1/2 ≤ d.confidence ∧ d.confidence ≤ 1 := by
  refine ⟨rfl, ?_⟩
  intro scores d h hnn
  obtain ⟨hne, h1, h2, h3, h4, -, -, h6⟩ := aggregate_ok_char scores d h
  have hsum := aggregate_norm_sum scores d h
  have hlen : (0:ℚ) < (scores.length : ℚ) := by
    have hp : 0 < scores.length := List.length_pos.mpr hne
    exact_mod_cast hp
  have hp0 : 0 ≤ d.avg_plant_score := by
    rw [h1]
    refine div_nonneg (List.sum_nonneg ?_) (le_of_lt hlen)
    intro x hx
    obtain ⟨s, hs, rfl⟩ := List.mem_map.mp hx
    exact (hnn s hs).1
  have ha0 : 0 ≤ d.avg_animal_score := by
    rw [h2]
    refine div_nonneg (List.sum_nonneg ?_) (le_of_lt hlen)
    intro x hx
    obtain ⟨s, hs, rfl⟩ := List.mem_map.mp hx
    exact (hnn s hs).2
  by_cases h0 : 0 < d.avg_plant_score + d.avg_animal_score
  · obtain ⟨hpn, han⟩ := h3 h0
    have hpn1 : d.plant_score_norm ≤ 1 := by
      rw [hpn]; exact div_le_one_of_le (by linarith) (le_of_lt h0)
    have han1 : d.animal_score_norm ≤ 1 := by
      rw [han]; exact div_le_one_of_le (by linarith) (le_of_lt h0)
    constructor
    · rw [h6]
      rcases le_total d.plant_score_norm d.animal_score_norm with hle | hle
      · rw [max_eq_right hle]; linarith
      · rw [max_eq_left hle]; linarith
    · rw [h6]; exact max_le hpn1 han1
  · obtain ⟨hpn, han⟩ := h4 h0
    rw [h6, hpn, han]
    norm_num

/-- Witness for C8 at the concrete non-empty score list `[(3, 1)]`. -/
theorem C8_witness :
    1/2 ≤ (⟨3, 1, 3/4, 1/4, "plant", 3/4⟩ : AggResult).confidence ∧
    (⟨3, 1, 3/4, 1/4, "plant", 3/4⟩ : AggResult).confidence ≤ 1 :=
  C8_aggregate_bounds.2 [((3:ℚ), (1:ℚ))] ⟨3, 1, 3/4, 1/4, "plant", 3/4⟩
    (by simp only [aggregate]; norm_num) (by decide)

/-! ## Dictionary lemmas -/

/-- Lookup distributes over append, preferring the left list. -/
theorem dlookup_append (d e : Dict) (k' : String) :
    dlookup k' (d ++ e) = (dlookup k' d).orElse fun _ => dlookup k' e := by
  induction d with
  | nil => simp [dlookup]
  | cons hd tl ih =>
    obtain ⟨a, b⟩ := hd
    by_cases h : k' = a
    · simp [dlookup, h]
    · simp [dlookup, h, ih]

/-- The fundamental equation for `dinsert`: the inserted key now maps to the
new value and every other key is untouched. -/
theorem dget_dinsert (d : Dict) (k k' : String) (v : Val) :
    dget (dinsert d k v) k' = if k' = k then some v else dget d k' := by
  unfold dget
  induction d with
  | nil =>
    by_cases hk : k' = k <;> simp [dinsert, dlookup, hk]
  | cons hd tl ih =>
    obtain ⟨a, b⟩ := hd
    by_cases hka : k = a
    · subst hka
      by_cases hk : k' = k <;> simp [dinsert, dlookup, hk]
    · by_cases hk' : k' = a
      · subst hk'
        have hne : ¬ k' = k := fun h => hka (h.symm)
        simp [dinsert, dlookup, hka, hne]
      · simp [dinsert, dlookup, hka, hk', ih]

/-- Key presence after `dinsert`. -/
theorem containsKey_dinsert (d : Dict) (k k' : String) (v : Val) :
    containsKey (dinsert d k v) k' = (containsKey d k' || decide (k' = k)) := by
  have h := dget_dinsert d k k' v
  unfold dget at h
  unfold containsKey
  rw [h]
  by_cases hk : k' = k
  · simp [hk]
  · simp [hk]

/-- `dinsert` never removes a key. -/
theorem containsKey_dinsert_mono (d : Dict) (k k' : String) (v : Val)
    (h : containsKey d k' = true) : containsKey (dinsert d k v) k' = true := by
  rw [containsKey_dinsert, h, Bool.true_or]

/-- `dupdate` leaves alone every key the updating dictionary does not
mention. -/
theorem dget_dupdate_of_not_mem (other : Dict) : ∀ (d : Dict) (k : String),
    containsKey other k = false → dget (dupdate d other) k = dget d k := by
  induction other with
  | nil => intro d k _; rfl
  | cons hd tl ih =>
    intro d k hk
    obtain ⟨a, b⟩ := hd
    unfold containsKey dlookup at hk
    by_cases hka : k = a
    · rw [if_pos hka] at hk
      simp at hk
    · rw [if_neg hka] at hk
      have := ih (dinsert d a b) k hk
      unfold dupdate at this ⊢
      simp only [List.foldl_cons]
      rw [this, dget_dinsert, if_neg hka]

/-- `dupdate` never removes a key. -/
theorem containsKey_dupdate_mono (other : Dict) : ∀ (d : Dict) (k : String),
    containsKey d k = true → containsKey (dupdate d other) k = true := by
  induction other with
  | nil => intro d k h; exact h
  | cons hd tl ih =>
    intro d k h
    obtain ⟨a, b⟩ := hd
    unfold dupdate
    simp only [List.foldl_cons]
    exact ih (dinsert d a b) k (containsKey_dinsert_mono d a k b h)

/-! ## Result-shape and call-log lemmas -/

/-- The four mandatory keys of every classification result dictionary. -/
def has_core_keys (d : Dict) : Bool :=
  containsKey d "label" && containsKey d "confidence" &&
  containsKey d "source" && containsKey d "error"

/-- `dinsert` preserves the presence of the four mandatory keys. -/
theorem has_core_keys_dinsert (d : Dict) (k : String) (v : Val)
    (h : has_core_keys d = true) : has_core_keys (dinsert d k v) = true := by
  simp only [has_core_keys, Bool.and_eq_true] at h ⊢
  exact ⟨⟨⟨containsKey_dinsert_mono _ _ _ _ h.1.1.1,
    containsKey_dinsert_mono _ _ _ _ h.1.1.2⟩,
    containsKey_dinsert_mono _ _ _ _ h.1.2⟩,
    containsKey_dinsert_mono _ _ _ _ h.2⟩

/-- `set_in_additional` preserves the four mandatory keys. -/
theorem has_core_keys_set_in_additional (d : Dict) (k : String) (v : Val)
    (h : has_core_keys d = true) :
    has_core_keys (set_in_additional d k v) = true := by
  unfold set_in_additional
  split
  · exact has_core_keys_dinsert _ _ _ h
  · exact has_core_keys_dinsert _ _ _ h

/-- `update_additional` preserves the four mandatory keys. -/
theorem has_core_keys_update_additional (d details : Dict)
    (h : has_core_keys d = true) :
    has_core_keys (update_additional d details) = true := by
  unfold update_additional
  split
  · exact has_core_keys_dinsert _ _ _ h
  · exact h
  · exact has_core_keys_dinsert _ _ _ h

/-- `merge_additional` preserves the four mandatory keys. -/
theorem has_core_keys_merge_additional (d details : Dict)
    (h : has_core_keys d = true) :
    has_core_keys (merge_additional d details) = true := by
  unfold merge_additional
  split
  · exact has_core_keys_update_additional _ _ h
  · exact h

/-- `apply_enrichment` preserves the four mandatory keys. -/
theorem has_core_keys_apply_enrichment (d : Dict) (e : Option Enrichment)
    (h : has_core_keys d = true) :
    has_core_keys (apply_enrichment d e) = true := by
  cases e with
  | none => exact h
  | some e =>
    simp only [apply_enrichment]
    refine has_core_keys_dinsert _ _ _ (has_core_keys_dinsert _ _ _ ?_)
    cases e.scientific_name with
    | some sci => exact has_core_keys_dinsert _ _ _ h
    | none =>
      by_cases ht : (e.page_title != "") = true
      · rw [if_pos ht]
        exact has_core_keys_dinsert _ _ _ h
      · rw [if_neg ht]
        exact h

/-- A successful `_try_plantnet` result: the mandatory keys are present,
the source is tagged `plantnet`, and no `enrichment` key is attached. -/
theorem try_plantnet_fields (top : PlantTop) :
    ∃ r, try_plantnet (some top) = some r ∧
      dget r "source" = some (.str "plantnet") ∧
      containsKey r "enrichment" = false ∧
      has_core_keys r = true := by
  obtain ⟨sci, com, sp, sug, p⟩ := top
  cases sci <;> cases com <;> exact ⟨_, rfl, rfl, rfl, rfl⟩

/-- The fallback stages of the Google adapter produce results with the
mandatory keys. -/
theorem google_fallback_core_keys (g : GOracle) (r : Dict)
    (h : google_fallback_stages g = some r) : has_core_keys r = true := by
  unfold google_fallback_stages at h
  split at h
  · obtain rfl := (Option.some.injEq _ _).mp h.symm
    rfl
  · split at h
    · obtain rfl := (Option.some.injEq _ _).mp h.symm
      rfl
    · split at h
      · simp at h
      · split at h
        · split at h
          · obtain rfl := (Option.some.injEq _ _).mp h.symm
            rfl
          · simp at h
        · simp at h

/-- Every call logged by the candidate-enrichment loop is a Wikipedia
lookup. -/
theorem choose_enrichment_wikipedia_only (enrich : String → Option Enrichment) :
    ∀ (cands : List String) (acc : Option Enrichment),
      ∀ c ∈ (choose_enrichment enrich cands acc).2, c = Call.wikipedia := by
  intro cands
  induction cands with
  | nil =>
    intro acc c hc
    simp [choose_enrichment] at hc
  | cons hd tl ih =>
    intro acc c hc
    simp only [choose_enrichment] at hc
    cases he : enrich hd with
    | none =>
      rw [he] at hc
      simp only [List.mem_cons] at hc
      rcases hc with hc | hc
      · exact hc
      · exact ih acc c hc
    | some e =>
      rw [he] at hc
      dsimp only at hc
      by_cases h1 : e.scientific_name.isSome
      · rw [if_pos h1] at hc
        simpa using hc
      · rw [if_neg h1] at hc
        by_cases h2 : ((e.page_title != "") &&
            (strContains e.page_title " " || strContains e.page_title "(")) = true
        · rw [if_pos h2] at hc
          simpa using hc
        · rw [if_neg h2] at hc
          simp only [List.mem_cons] at hc
          rcases hc with hc | hc
          · exact hc
          · exact ih _ c hc

/-- The Google adapter never logs a nested call to itself. -/
theorem google_not_in_gv_log (g : GOracle) (pn : Option PlantTop) :
    Call.google ∉ (try_google_vision g pn).2 := by
  unfold try_google_vision
  split
  · simp
  · split
    · simp
    · split
      · simp
      · next desc score rest heq =>
        dsimp only
        split
        · split
          · simp
          · intro hmem
            simp only [List.mem_cons] at hmem
            rcases hmem with hmem | hmem
            · exact Call.noConfusion hmem
            · have := choose_enrichment_wikipedia_only _ _ _ _ hmem
              exact Call.noConfusion this
        · intro hmem
          have := choose_enrichment_wikipedia_only _ _ _ _ hmem
          exact Call.noConfusion this

/-- Every result the Google adapter returns carries the four mandatory
keys. -/
theorem try_google_vision_core_keys (g : GOracle) (pn : Option PlantTop)
    (r : Dict) (l : List Call) (h : try_google_vision g pn = (some r, l)) :
    has_core_keys r = true := by
  unfold try_google_vision at h
  split at h
  · simp at h
  · split at h
    · injection h with h1 h2
      exact google_fallback_core_keys g r h1
    · split at h
      · injection h with h1 h2
        exact google_fallback_core_keys g r h1
      · next desc score rest heq =>
        dsimp only at h
        split at h
        · split at h
          · next pr hpr =>
            injection h with h1 h2
            injection h1 with h1
            obtain rfl := h1.symm
            rcases pn with _ | top
            · simp [try_plantnet] at hpr
            · obtain ⟨r0, hr0, -, -, hck⟩ := try_plantnet_fields top
              rw [hpr] at hr0
              injection hr0 with hr0
              obtain rfl := hr0
              exact has_core_keys_merge_additional _ _ hck
          · injection h with h1 h2
            injection h1 with h1
            obtain rfl := h1.symm
            exact has_core_keys_apply_enrichment _ _ rfl
        · injection h with h1 h2
          injection h1 with h1
          obtain rfl := h1.symm
          exact has_core_keys_apply_enrichment _ _ rfl

/-- A successful PlantNet lookup preserved under `try_plantnet`. -/
theorem try_plantnet_some_core_keys (pn : Option PlantTop) (r : Dict)
    (h : try_plantnet pn = some r) : has_core_keys r = true := by
  cases pn with
  | none => simp [try_plantnet] at h
  | some top =>
    obtain ⟨r0, hr0, -, -, hck⟩ := try_plantnet_fields top
    rw [h] at hr0
    injection hr0 with hr0
    subst hr0
    exact hck

/-- Step 3 always yields a result with the four mandatory keys. -/
theorem classify_step3_core_keys (pn : Option PlantTop) (g : GOracle) :
    has_core_keys (classify_step3 pn g).1 = true := by
  unfold classify_step3
  rcases hg : try_google_vision g pn with ⟨ro, lg⟩
  cases ro with
  | none => rfl
  | some rg => exact try_google_vision_core_keys g pn rg lg hg

/-- Step 3 logs exactly one Google call. -/
theorem classify_step3_google_count (pn : Option PlantTop) (g : GOracle) :
    (classify_step3 pn g).2.count Call.google = 1 := by
  unfold classify_step3
  rcases hg : try_google_vision g pn with ⟨ro, lg⟩
  have h0 : lg.count Call.google = 0 := by
    have hm := google_not_in_gv_log g pn
    rw [hg] at hm
    exact List.count_eq_zero.mpr hm
  cases ro <;> simp [h0]

/-- When the Google adapter yields nothing, step 3 returns the terminal
failure record. -/
theorem classify_step3_terminal (pn : Option PlantTop) (g : GOracle)
    (h : (try_google_vision g pn).1 = none) :
    (classify_step3 pn g).1 = terminal_result := by
  unfold classify_step3
  rcases hg : try_google_vision g pn with ⟨ro, lg⟩
  cases ro with
  | none => rfl
  | some rg => rw [hg] at h; simp at h

/-! ## Concrete oracles used in witnesses and counterexamples -/

/-- A Google oracle on which the Vision client is unavailable (every call
fails; `_try_google_vision` returns `None`). -/
def g_unavailable : GOracle :=
  ⟨false, none, [], false, none, [], ⟨false, [], none, []⟩, fun _ => none,
   [], [], none, none, []⟩

/-- A PlantNet oracle returning a rose suggestion. -/
def pn_rosa : Option PlantTop :=
  some ⟨some "Rosa chinensis", none, none, none, 9/10⟩

/-- The result record `_try_plantnet` builds from `pn_rosa`. -/
def rosa_result : Dict :=
  [("label", .str "Rosa chinensis"), ("confidence", .num (9/10)),
   ("source", .str "plantnet"), ("error", .null), ("raw", .null),
   ("additional_details", .dict [("scientific_name", .str "Rosa chinensis")])]

/-! ## Claim theorems about the Provider Router -/

/-- C9: `classify_image` is total at its public interface: for every
combination of oracle outcomes — the PyTorch identifier unavailable or
raising, either provider failing, enrichment failing — it returns a result
dictionary containing the keys `label`, `confidence`, `source` and `error`
(in the model every Python exception path is an oracle outcome, and
`classify_image` is a total function of the oracles, so no exception
escapes). -/
theorem C9_classify_image_total (py : Option (Except String String))
    (pn : Option PlantTop) (g : GOracle) :
    containsKey (classify_image py pn g).1 "label" = true ∧
    containsKey (classify_image py pn g).1 "confidence" = true ∧
    containsKey (classify_image py pn g).1 "source" = true ∧
    containsKey (classify_image py pn g).1 "error" = true := by
  suffices h : has_core_keys (classify_image py pn g).1 = true by
    simp only [has_core_keys, Bool.and_eq_true] at h
    exact ⟨h.1.1.1, h.1.1.2, h.1.2, h.2⟩
  unfold classify_image
  cases hpy : categoryOf py with
  | none => exact classify_step3_core_keys pn g
  | some c =>
    dsimp only
    by_cases hcp : c = "plant"
    · rw [if_pos hcp]
      rcases hpn : try_plantnet pn with _ | r
      · exact classify_step3_core_keys pn g
      · exact try_plantnet_some_core_keys pn r hpn
    · rw [if_neg hcp]
      by_cases hca : c = "animal"
      · rw [if_pos hca]
        rcases hg : try_google_vision g pn with ⟨ro, lg⟩
        cases ro with
        | none => exact classify_step3_core_keys pn g
        | some rg => exact try_google_vision_core_keys g pn rg lg hg
      · rw [if_neg hca]
        exact classify_step3_core_keys pn g

/-- C3 counterexample: with the ensemble decision `animal` and a Google
adapter that yields nothing, `classify_image` invokes the general-purpose
provider twice — once in the category stage and once more in the
universal-fallback stage — although no post-hoc plant-keyword re-route
occurred (the claim asserts at most one call in this situation). -/
theorem C3_counterexample :
    (classify_image (some (.ok "animal")) none g_unavailable).2 =
      [Call.google, Call.google] := rfl

/-- C3 amended: `classify_image` calls the general-purpose provider at most
twice per request, and when the ensemble decision is `animal` and the
general provider returns no usable result it is invoked a second time in
the universal-fallback stage (the post-hoc plant-keyword correction inside
the general provider only adds plant-specialist calls, never further
general-provider calls). -/
theorem C3_amended_router (py : Option (Except String String))
    (pn : Option PlantTop) (g : GOracle) :
    (classify_image py pn g).2.count Call.google ≤ 2 ∧
    (categoryOf py = some "animal" → (try_google_vision g pn).1 = none →
      (classify_image py pn g).2.count Call.google = 2) := by
  have hstep3 := classify_step3_google_count pn g
  rcases hg : try_google_vision g pn with ⟨ro, lg⟩
  have hlg : lg.count Call.google = 0 := by
    have hm := google_not_in_gv_log g pn
    rw [hg] at hm
    exact List.count_eq_zero.mpr hm
  unfold classify_image
  cases hpy : categoryOf py with
  | none =>
    dsimp only
    exact ⟨by omega, fun hc _ => by simp at hc⟩
  | some c =>
    dsimp only
    by_cases hcp : c = "plant"
    · rw [if_pos hcp]
      rcases hpn : try_plantnet pn with _ | r
      · refine ⟨?_, fun hc _ => ?_⟩
        · dsimp only
          simp [List.count_cons, hstep3]
        · injection hc with hc
          rw [hcp] at hc
          exact absurd hc (by decide)
      · refine ⟨?_, fun hc _ => ?_⟩
        · dsimp only
          decide
        · injection hc with hc
          rw [hcp] at hc
          exact absurd hc (by decide)
    · rw [if_neg hcp]
      by_cases hca : c = "animal"
      · rw [if_pos hca, hg]
        cases ro with
        | some rg =>
          refine ⟨?_, fun _ hnone => ?_⟩
          · dsimp only
            simp [List.count_cons, hlg]
          · simp at hnone
        | none =>
          have hcount :
              (Call.google :: lg ++ (classify_step3 pn g).2).count Call.google = 2 := by
            simp [List.count_cons, List.count_append, hlg, hstep3]
          exact ⟨le_of_eq hcount, fun _ _ => hcount⟩
      · rw [if_neg hca]
        refine ⟨by omega, fun hc _ => ?_⟩
        injection hc with hc
        exact absurd hc hca

/-- Witness for the amended C3: the exact situation of the counterexample
discharges the hypotheses of the second conjunct. -/
theorem C3_witness :
    (classify_image (some (.ok "animal")) none g_unavailable).2.count Call.google = 2 :=
  (C3_amended_router (some (.ok "animal")) none g_unavailable).2 rfl rfl

/-- C4 counterexample: with undecodable image bytes (the PyTorch identifier
raises `cannot identify image file`), `classify_image` does not fail with
`InvalidImage`: the exception is caught, a provider call IS attempted (the
general-purpose provider appears in the call log), and the terminal error
record is returned when that provider also fails. -/
theorem C4_counterexample :
    Call.google ∈
      (classify_image (some (.error "cannot identify image file"))
        none g_unavailable).2 ∧
    (classify_image (some (.error "cannot identify image file"))
      none g_unavailable).1 = terminal_result := by
  refine ⟨?_, rfl⟩
  have h : (classify_image (some (.error "cannot identify image file"))
      none g_unavailable).2 = [Call.google] := rfl
  rw [h]
  exact List.mem_singleton.mpr rfl

/-- C4 amended: when the image bytes are empty or undecodable, the decode
failure raised inside the ensemble identifier is caught by
`classify_image`, the category stays undetermined, the general-purpose
provider IS invoked (first call in the log), and if it yields nothing the
terminal error record — not an `InvalidImage` failure — is surfaced. -/
theorem C4_amended_invalid_image (pn : Option PlantTop) (g : GOracle)
    (msg : String) :
    (classify_image (some (.error msg)) pn g).2.head? = some Call.google ∧
    ((try_google_vision g pn).1 = none →
      (classify_image (some (.error msg)) pn g).1 = terminal_result) := by
  constructor
  · unfold classify_image classify_step3
    rcases hg : try_google_vision g pn with ⟨ro, lg⟩
    cases ro <;> rfl
  · intro hnone
    unfold classify_image
    exact classify_step3_terminal pn g hnone

/-- Witness for the amended C4 at concrete failing oracles. -/
theorem C4_witness :
    (classify_image (some (.error "x")) none g_unavailable).2.head? =
      some Call.google ∧
    (classify_image (some (.error "x")) none g_unavailable).1 =
      terminal_result :=
  ⟨(C4_amended_invalid_image none g_unavailable "x").1,
   (C4_amended_invalid_image none g_unavailable "x").2 rfl⟩

/-- C5 counterexample: the terminal error string the code produces is
`"No classification provider could classify the image"`, not the string
`"no provider could classify the image"` that the claim asserts. -/
theorem C5_counterexample :
    dget (classify_image none none g_unavailable).1 "error" =
      some (.str "No classification provider could classify the image") ∧
    "No classification provider could classify the image" ≠
      "no provider could classify the image" :=
  ⟨rfl, by decide⟩

/-- C5 amended: when every attempted provider yields no usable result,
`classify_image` returns the terminal record whose label is null and whose
error field is exactly the string
`"No classification provider could classify the image"`. -/
theorem C5_amended_terminal (py : Option (Except String String))
    (pn : Option PlantTop) (g : GOracle)
    (hpn : try_plantnet pn = none) (hg : (try_google_vision g pn).1 = none) :
    (classify_image py pn g).1 = terminal_result ∧
    dget terminal_result "label" = some .null ∧
    dget terminal_result "error" =
      some (.str "No classification provider could classify the image") := by
  refine ⟨?_, rfl, rfl⟩
  have hstep3 := classify_step3_terminal pn g hg
  unfold classify_image
  cases hpy : categoryOf py with
  | none => exact hstep3
  | some c =>
    dsimp only
    by_cases hcp : c = "plant"
    · rw [if_pos hcp, hpn]
      exact hstep3
    · rw [if_neg hcp]
      by_cases hca : c = "animal"
      · rw [if_pos hca]
        rcases hgv : try_google_vision g pn with ⟨ro, lg⟩
        cases ro with
        | none => exact hstep3
        | some rg =>
          rw [hgv] at hg
          simp at hg
      · rw [if_neg hca]
        exact hstep3

/-- Witness for the amended C5 at concrete all-failing oracles. -/
theorem C5_witness :
    (classify_image none none g_unavailable).1 = terminal_result :=
  (C5_amended_terminal none none g_unavailable rfl rfl).1

/-- C10: when the ensemble decision is `plant` and the plant-specialist
provider returns a non-null result, `classify_image` returns that result
directly: its source is `plantnet`, no enrichment record is attached (no
Wikipedia/Wikidata lookup happens on this path), and the call log is
exactly one plant-specialist call — the general-purpose provider is never
invoked. -/
theorem C10_plant_direct (py : Option (Except String String))
    (pn : Option PlantTop) (g : GOracle) (r : Dict)
    (hcat : categoryOf py = some "plant") (hpn : try_plantnet pn = some r) :
    classify_image py pn g = (r, [Call.plantnet]) ∧
    dget r "source" = some (.str "plantnet") ∧
    containsKey r "enrichment" = false := by
  have hfields : dget r "source" = some (.str "plantnet") ∧
      containsKey r "enrichment" = false := by
    cases pn with
    | none => simp [try_plantnet] at hpn
    | some top =>
      obtain ⟨r0, hr0, hs, hn, -⟩ := try_plantnet_fields top
      rw [hpn] at hr0
      injection hr0 with hr0
      subst hr0
      exact ⟨hs, hn⟩
  refine ⟨?_, hfields.1, hfields.2⟩
  unfold classify_image
  rw [hcat]
  dsimp only
  rw [if_pos rfl, hpn]

/-- Witness for C10: a concrete plant decision with a successful PlantNet
lookup and an unavailable Google client. -/
theorem C10_witness :
    classify_image (some (.ok "plant")) pn_rosa g_unavailable =
      (rosa_result, [Call.plantnet]) ∧
    dget rosa_result "source" = some (.str "plantnet") ∧
    containsKey rosa_result "enrichment" = false :=
  C10_plant_direct (some (.ok "plant")) pn_rosa g_unavailable rosa_result rfl rfl

/-- Details oracle for C6: Google detected text in the image, so
`_get_additional_vision_details` returns a non-empty details dictionary. -/
def details_rose : DetailsOracle := ⟨true, [], some "Rosa sign", []⟩

/-- Google oracle for C6: label detection returns `Rose` (a plant keyword),
with non-empty additional details gathered. -/
def g_rose : GOracle :=
  ⟨true, none, [("Rose", 9/10)], false, none, [], details_rose, fun _ => none,
   [], [], none, none, []⟩

/-- C6 (code bug): the merge guard of the post-hoc plant correction is
`if 'additional_details' in additional_details:` — it tests for the key
`additional_details` inside the details dictionary itself, which
`_get_additional_vision_details` can never produce (its keys are
`dominant_colors`, `detected_text`, `detected_objects`).  The guard is
therefore always false and the documented merge (`# merge additional
details if Google provided some`) never runs: at the failing input the
plant-specialist result is preferred as claimed, but the gathered
`detected_text` detail is NOT merged into it. -/
theorem C6_merge_guard_dead :
    (∀ d : DetailsOracle,
      containsKey (get_additional_vision_details d) "additional_details" = false) ∧
    get_additional_vision_details details_rose =
      [("detected_text", .str "Rosa sign")] ∧
    try_google_vision g_rose pn_rosa = (some rosa_result, [Call.plantnet]) ∧
    dget rosa_result "additional_details" =
      some (.dict [("scientific_name", .str "Rosa chinensis")]) ∧
    containsKey [("scientific_name", Val.str "Rosa chinensis")] "detected_text" =
      false := by
  refine ⟨?_, rfl, rfl, rfl, rfl⟩
  intro d
  obtain ⟨ok, colors, text, objects⟩ := d
  cases ok
  · rfl
  · cases text <;> rcases colors with _ | ⟨c, cs⟩ <;> rcases objects with _ | ⟨o, os⟩ <;>
      rfl

/-- The primary-provider result used in the C7 counterexample. -/
def c7_primary : Dict :=
  [("label", .str "Sample"), ("confidence", .num 1), ("source", .str "plantnet"),
   ("error", .null),
   ("additional_details", .dict [("detected_text", .str "primary-value")])]

/-- C7 counterexample: the merge is `dict.update`, so on a colliding key
the general provider's value wins: after merging details holding
`detected_text`, the primary provider's value under `detected_text` has
been replaced by the general provider's — the claim asserts the primary
value is unchanged on every collision. -/
theorem C7_counterexample :
    dget (update_additional c7_primary [("detected_text", .str "google-value")])
      "additional_details" =
      some (.dict [("detected_text", .str "google-value")]) := rfl

/-- C7 amended: the merge writes the general provider's auxiliary entries
into the primary result's `additional_details` with `dict.update`, so on a
collision the general provider's value wins; a key the primary provider
set keeps its value exactly when the auxiliary details do not contain that
key (which is the case in every actual run: the primary provider only sets
`scientific_name`/`common_name` while the general provider's details only
hold `dominant_colors`/`detected_text`/`detected_objects`). -/
theorem C7_amended_merge (res inner details : Dict) (k : String) (v : Val)
    (hres : dget res "additional_details" = some (.dict inner))
    (hk : dget inner k = some v) (hkd : containsKey details k = false) :
    dget (update_additional res details) "additional_details" =
      some (.dict (dupdate inner details)) ∧
    dget (dupdate inner details) k = some v := by
  constructor
  · unfold update_additional
    rw [hres]
    exact (dget_dinsert res "additional_details" "additional_details" _).trans
      (if_pos rfl)
  · rw [dget_dupdate_of_not_mem details inner k hkd]
    exact hk

/-- Witness for the amended C7 at a concrete non-colliding merge. -/
theorem C7_witness :
    dget (update_additional c7_primary [("dominant_colors", Val.null)])
      "additional_details" =
      some (.dict (dupdate [("detected_text", Val.str "primary-value")]
        [("dominant_colors", Val.null)])) ∧
    dget (dupdate [("detected_text", Val.str "primary-value")]
      [("dominant_colors", Val.null)]) "detected_text" =
      some (.str "primary-value") :=
  C7_amended_merge c7_primary [("detected_text", Val.str "primary-value")]
    [("dominant_colors", Val.null)] "detected_text" (Val.str "primary-value")
    rfl rfl rfl

end NatureScope
